import Mathlib

/-!
# Verification of the sekti-ml-service EQ / classification pipeline

Shallow embedding of `app/services/eq_service.py` and
`app/services/prediction_service.py`, with theorems settling the frozen
claims about session segmentation, EQ scoring, error classification,
prediction defaults and the retraining / reconciliation protocol.

Conventions:
* Python `str` values are Lean `String`; a value that may be `None`
  (e.g. `event.get('error_snapshot')`) is an `Option String`.
* Python floats are modelled with exact rationals `ℚ`.
* Timestamps are modelled as POSIX seconds (`ℤ`); the ISO-8601 parser
  `parse_flexible_isoformat` is an external-format concern passed in as a
  `String → Option ℤ` parameter, mirroring that `identify_sessions` only
  uses "parsed or failed" plus the resulting instant.
-/

namespace Sekti

/-! ## Python string primitives used by `eq_service.py` -/

/-- The characters stripped by Python `str.strip()` (ASCII whitespace). -/
def isPySpace (c : Char) : Bool :=
  c = ' ' || c = '\t' || c = '\n' || c = '\r' || c = '\x0b' || c = '\x0c'

/-- Python `not s.strip()`: the string is empty or all-whitespace. -/
def pyBlank (s : String) : Bool := s.data.all isPySpace

/-- Python truthiness of an optional string (`if snapshot:`). -/
def snapTruthy : Option String → Bool
  | none => false
  | some s => s ≠ ""

/-- Python `str.lower()` on one character (the patterns and compiler
messages are ASCII). -/
def pyLowerChar (c : Char) : Char :=
  if 'A' ≤ c ∧ c ≤ 'Z' then Char.ofNat (c.toNat + 32) else c

/-- `error_snapshot.lower()`, as a character list. -/
def lowerData (s : String) : List Char := s.data.map pyLowerChar

/-- Does `pre` occur at the very start of `l`? -/
def listStartsWith : List Char → List Char → Bool
  | [], _ => true
  | _ :: _, [] => false
  | a :: as, b :: bs => a = b && listStartsWith as bs

/-- `re.search` of a literal pattern: does `needle` occur anywhere in `hay`? -/
def containsSub (needle : List Char) : List Char → Bool
  | [] => listStartsWith needle []
  | c :: rest => listStartsWith needle (c :: rest) || containsSub needle rest

/-- Match `.*second` from the current position: skip any number of
non-newline characters (Python `re` without DOTALL), then `second`. -/
def dotStarThen (second : List Char) : List Char → Bool
  | [] => listStartsWith second []
  | c :: rest => listStartsWith second (c :: rest) || (c ≠ '\n' && dotStarThen second rest)

/-- `re.search` of `first.*second` (e.g. `constructor.*cannot be applied`):
some occurrence of `first` followed, with no intervening newline, by `second`. -/
def seqSearch (first second : List Char) : List Char → Bool
  | [] => listStartsWith first [] && dotStarThen second []
  | c :: rest =>
      (listStartsWith first (c :: rest) && dotStarThen second ((c :: rest).drop first.length))
        || seqSearch first second rest

/-! ## Error classification (`patterns` table, `parse_error_details`) -/

/-- The 14 scoring error categories of the ordered `patterns` table. -/
inductive ErrType where
  | error_cannot_find_symbol
  | error_semicolon_expected
  | error_runtime_exception
  | error_constructor
  | error_identifier_expected
  | error_illegal_start_of_type
  | bracket_expected
  | class_or_interface_expected
  | dot_class_expected
  | not_a_statement
  | missing_return
  | incompatible_types
  | private_access_violation
  | method_application_error
deriving DecidableEq, Repr

/-- The regex of each entry of `patterns`, as a matcher on the lowered
message characters (all patterns are literal substrings except the
alternations and the single `.*` pattern). -/
def patMatch : ErrType → List Char → Bool
  | .error_cannot_find_symbol, s => containsSub "cannot find symbol".data s
  | .error_semicolon_expected, s => containsSub "; expected".data s
  | .error_runtime_exception, s => containsSub "runtimeexception".data s
  | .error_constructor, s => seqSearch "constructor".data "cannot be applied".data s
  | .error_identifier_expected, s => containsSub "<identifier> expected".data s
  | .error_illegal_start_of_type, s => containsSub "illegal start of type".data s
  | .bracket_expected, s =>
      containsSub "\x7b expected".data s || containsSub "( expected".data s
        || containsSub "illegal start of expression".data s
  | .class_or_interface_expected, s => containsSub "class or interface expected".data s
  | .dot_class_expected, s => containsSub ".class expected".data s
  | .not_a_statement, s => containsSub "not a statement".data s
  | .missing_return, s =>
      containsSub "missing return statement".data s || containsSub "missing return value".data s
  | .incompatible_types, s => containsSub "incompatible types".data s
  | .private_access_violation, s => containsSub "has private access".data s
  | .method_application_error, s =>
      containsSub "cannot be applied to".data s
        || containsSub "actual and formal argument lists differ".data s

/-- Iteration order of the `patterns` dict (first match wins). -/
def patternOrder : List ErrType :=
  [.error_cannot_find_symbol, .error_semicolon_expected, .error_runtime_exception,
   .error_constructor, .error_identifier_expected, .error_illegal_start_of_type,
   .bracket_expected, .class_or_interface_expected, .dot_class_expected,
   .not_a_statement, .missing_return, .incompatible_types,
   .private_access_violation, .method_application_error]

/-- `parse_error_details`, restricted to its first component (the EQ error
type).  The source also extracts a line number from the snapshot, which its
own comment records as unused in EQ scoring; it is omitted here. -/
def parse_error_type (snap : Option String) : Option ErrType :=
  match snap with
  | none => none
  | some s =>
      if pyBlank s then none
      else patternOrder.find? (fun t => patMatch t (lowerData s))

/-! ## Counted error types (`COUNTED_ERROR_TYPES`, `get_specific_error_counts`) -/

/-- The 6 counted-and-stored error types. -/
inductive CountedType where
  | error_cannot_find_symbol
  | error_semicolon_expected
  | error_runtime_exception
  | error_constructor
  | error_identifier_expected
  | error_illegal_start_of_type
deriving DecidableEq, Fintype, Repr

/-- The matcher of each `COUNTED_ERROR_TYPES` entry (same regexes as the
corresponding `patterns` entries). -/
def countedMatch : CountedType → List Char → Bool
  | .error_cannot_find_symbol, s => containsSub "cannot find symbol".data s
  | .error_semicolon_expected, s => containsSub "; expected".data s
  | .error_runtime_exception, s => containsSub "runtimeexception".data s
  | .error_constructor, s => seqSearch "constructor".data "cannot be applied".data s
  | .error_identifier_expected, s => containsSub "<identifier> expected".data s
  | .error_illegal_start_of_type, s => containsSub "illegal start of type".data s

/-- `get_specific_error_counts`: per counted type, 1 if the (lowered)
snapshot matches its pattern, else 0; a non-string (`none`) or blank
input yields all zeros. -/
def get_specific_error_counts (snap : Option String) : CountedType → ℕ :=
  match snap with
  | none => fun _ => 0
  | some s =>
      if pyBlank s then fun _ => 0
      else fun t => if countedMatch t (lowerData s) then 1 else 0

/-! ## EQ scoring (`calculate_session_eq`) -/

def ETYPE_SAME_PENALTY : ℕ := 11
def ETYPE_DIFF_PENALTY : ℕ := 8
def MAX_PENALTY : ℕ := max ETYPE_SAME_PENALTY ETYPE_DIFF_PENALTY

/-- One feedback event as consumed by the EQ pipeline. -/
structure FeedbackEvent where
  error_snapshot : Option String := none
  created_at : Option String := none
deriving DecidableEq, Repr

/-- The raw pair penalty of `calculate_session_eq`: 0 unless both events
classify, then 11 for the same type and 8 for different types. -/
def pair_score_raw (p c : Option String) : ℕ :=
  match parse_error_type p, parse_error_type c with
  | some tp, some tc => if tp = tc then ETYPE_SAME_PENALTY else ETYPE_DIFF_PENALTY
  | _, _ => 0

/-- The normalized pair score: `pair_score / MAX_PENALTY`. -/
def normalized_score (p c : Option String) : ℚ :=
  (pair_score_raw p c : ℚ) / (MAX_PENALTY : ℚ)

/-- The skip test of the revision block: a pair is dropped when the previous
snapshot `is not None` and equals the current one (no code change). -/
def pairIncluded (p c : Option String) : Bool :=
  !(p.isSome && p == c)

/-- The `pair_scores` list built by the scoring loop over consecutive
snapshot pairs, with excluded pairs contributing nothing. -/
def pair_scores_list : List (Option String) → List ℚ
  | [] => []
  | [_] => []
  | p :: c :: rest =>
      (if pairIncluded p c then [normalized_score p c] else []) ++ pair_scores_list (c :: rest)

/-- Per-event contribution to the session error counts (`if snapshot:` guard
around `get_specific_error_counts`). -/
def event_counts (snap : Option String) : CountedType → ℕ :=
  if snapTruthy snap then get_specific_error_counts snap else fun _ => 0

/-- Accumulated counts over every event of the session. -/
def session_counts (snaps : List (Option String)) : CountedType → ℕ :=
  fun t => (snaps.map (fun s => event_counts s t)).sum

/-- `np.mean` of a list of rationals. -/
def listMeanQ (l : List ℚ) : ℚ := l.sum / (l.length : ℚ)

/-- `calculate_session_eq`: returns `(session_eq_score, per-type counts)`.
Sessions with fewer than 2 events score 0.0 (a single event still feeds the
counted-type map); otherwise the score is the mean of the included pair
scores, or 0.0 when every pair was excluded. -/
def calculate_session_eq (evs : List FeedbackEvent) : ℚ × (CountedType → ℕ) :=
  if evs.length < 2 then
    (0, match evs with
        | [e] => event_counts e.error_snapshot
        | _ => fun _ => 0)
  else
    let snaps := evs.map (·.error_snapshot)
    let scores := pair_scores_list snaps
    ((if scores = [] then 0 else listMeanQ scores), session_counts snaps)

/-- The list of consecutive snapshot pairs actually included in scoring. -/
def includedPairs (snaps : List (Option String)) : List (Option String × Option String) :=
  (snaps.zip snaps.tail).filter (fun pc => pairIncluded pc.1 pc.2)

/-! ## Session identification (`identify_sessions`) -/

/-- An event paired with its parsed timestamp (`event['parsed_time']`),
as POSIX seconds. -/
abbrev PEv := FeedbackEvent × ℤ

/-- The sort key relation of `parsed_events.sort(key=lambda x: x['parsed_time'])`. -/
def timeLe (a b : PEv) : Prop := a.2 ≤ b.2

instance : DecidableRel timeLe := fun a b => inferInstanceAs (Decidable (a.2 ≤ b.2))
instance : IsTotal PEv timeLe := ⟨fun a b => le_total a.2 b.2⟩
instance : IsTrans PEv timeLe := ⟨fun _ _ _ => le_trans⟩

/-- The walk over the sorted events: `cur` is `current_session`, `last` is
`last_event_time`; a strict gap `> gapTd` closes the current session. -/
def sessionWalk (gapTd : ℤ) : List PEv → ℤ → List PEv → List (List PEv)
  | [], _, cur => if cur = [] then [] else [cur]
  | e :: rest, last, cur =>
      if gapTd < e.2 - last then
        (if cur = [] then [] else [cur]) ++ sessionWalk gapTd rest e.2 [e]
      else
        sessionWalk gapTd rest e.2 (cur ++ [e])

/-- The events of `user_events` that survive timestamp parsing
(`parsed_events` after the parsing loop). -/
def parsedEvents (parseTs : String → Option ℤ) (user_events : List FeedbackEvent) : List PEv :=
  user_events.filterMap (fun e => (e.created_at.bind parseTs).map (fun t => (e, t)))

/-- `identify_sessions`: drop events whose timestamp does not parse, sort
ascending by parsed time, split on gaps strictly exceeding
`max_gap_minutes` minutes.  `parseTs` stands for
`parse_flexible_isoformat` (an ISO-8601 parser, external to the claims),
returning POSIX seconds or `none` on failure. -/
def identify_sessions (parseTs : String → Option ℤ) (user_events : List FeedbackEvent)
    (max_gap_minutes : ℤ := 30) : List (List PEv) :=
  if user_events = [] then []
  else if parsedEvents parseTs user_events = [] then []
  else
    match List.insertionSort timeLe (parsedEvents parseTs user_events) with
    | [] => []
    | e0 :: rest => sessionWalk (60 * max_gap_minutes) rest e0.2 [e0]

/-- Two consecutive events belong to the same session: time-ordered and
within the gap threshold. -/
def withinGap (g : ℤ) (a b : PEv) : Prop := a.2 ≤ b.2 ∧ b.2 - a.2 ≤ g

/-- Adjacent sessions are separated by a gap strictly exceeding the
threshold (measured between the last event of one and the first of the
next). -/
def sessGap (g : ℤ) (s t : List PEv) : Prop :=
  ∀ a b, s.getLast? = some a → t.head? = some b → g < b.2 - a.2

/-! ## Prediction model state (`prediction_service.py` globals) -/

inductive Perf where
  | HIGH
  | MEDIUM
  | LOW
deriving DecidableEq, Repr

/-- A `StandardScaler`: `stats = some (mean_, scale_)` once fitted. -/
structure ScalerModel where
  stats : Option (ℚ × ℚ) := none
deriving DecidableEq, Repr

/-- A `KMeans` instance: `centers = some _` once fitted. -/
structure KMeansModel where
  n_clusters : ℕ := 3
  centers : Option (List ℚ) := none
deriving DecidableEq, Repr

/-- The four module-level globals `scaler, kmeans, perf_map,
cluster_label_map` (each may be `None`); the maps are assoc lists from
cluster index. -/
structure ModelState where
  scaler : Option ScalerModel
  kmeans : Option KMeansModel
  perf_map : Option (List (ℕ × Perf))
  cluster_label_map : Option (List (ℕ × ℤ))
deriving DecidableEq, Repr

/-- The freshly initialized (constructed but unfitted) model of `load_model`'s
fallback branches. -/
def defaultModelState : ModelState :=
  { scaler := some {}, kmeans := some { n_clusters := 3 },
    perf_map := some [(0, .HIGH), (1, .MEDIUM), (2, .LOW)],
    cluster_label_map := some [(0, 1), (1, 2), (2, 3)] }

/-- The persisted artifact: `none` models a missing/corrupt `.pkl`
(`joblib.load` raising), `some` the loaded 4-tuple. -/
abbrev Artifact :=
  Option ScalerModel × Option KMeansModel × Option (List (ℕ × Perf)) × Option (List (ℕ × ℤ))

/-- `load_model`: load the artifact; re-initialize on a missing file, a
cluster-count mismatch, or missing maps. -/
def load_model (artifact : Option Artifact) : ModelState :=
  match artifact with
  | none => defaultModelState
  | some (s, k, pm, clm) =>
      if (match k with | some km => km.n_clusters ≠ 3 | none => false : Bool) then
        defaultModelState
      else if pm.isNone || clm.isNone then defaultModelState
      else ⟨s, k, pm, clm⟩

/-- The `is None` guard of `predict_performance`. -/
def componentsMissing (st : ModelState) : Bool :=
  st.scaler.isNone || st.kmeans.isNone || st.perf_map.isNone || st.cluster_label_map.isNone

/-- `kmeans.predict` over explicit centers: index of the first nearest
center (numpy argmin tie-breaking). -/
def argminAux (v best : ℚ) (bestIdx i : ℕ) : List ℚ → ℕ
  | [] => bestIdx
  | c :: rest =>
      if |v - c| < best then argminAux v |v - c| i (i + 1) rest
      else argminAux v best bestIdx (i + 1) rest

def kmeansPredict (v : ℚ) : List ℚ → ℕ
  | [] => 0
  | c :: rest => argminAux v |v - c| 0 1 rest

/-- The body of `predict_performance` once the components are available:
return the default `(MEDIUM, 2)` when the scaler or the KMeans has never
been fitted, otherwise standardize and assign to the nearest center (the
`.get(..., default)` lookups keep the source's `'MEDIUM'` / `2` fallbacks). -/
def predictFitted (st1 : ModelState) (x : ℚ) : Except Unit (Perf × ℤ) :=
  match st1.scaler, st1.kmeans, st1.perf_map, st1.cluster_label_map with
  | some sc, some km, some pm, some clm =>
      match sc.stats with
      | none => .ok (.MEDIUM, 2)
      | some stats =>
          match km.centers with
          | none => .ok (.MEDIUM, 2)
          | some centers =>
              .ok ((pm.lookup (kmeansPredict ((x - stats.1) / stats.2) centers)).getD .MEDIUM,
                   (clm.lookup (kmeansPredict ((x - stats.1) / stats.2) centers)).getD 2)
  | _, _, _, _ => .error ()

/-- `predict_performance`: reload when components are `None`; fail
(`RuntimeError`) only if they are still `None` after reloading; otherwise
run `predictFitted`.  Also returns the resulting global state. -/
def predict_performance (artifact : Option Artifact) (st : ModelState) (x : ℚ) :
    Except Unit (Perf × ℤ) × ModelState :=
  if componentsMissing st then
    (if componentsMissing (load_model artifact) then (.error (), load_model artifact)
     else (predictFitted (load_model artifact) x, load_model artifact))
  else (predictFitted st x, st)

/-! ## Retraining (`retrain_model`) -/

/-- One `eq_metrics` row as fetched for retraining. -/
structure MetricRow where
  user_id : String
  average_eq_score : Option ℚ := none
  total_sessions_analyzed : ℤ := 0
deriving DecidableEq, Repr

/-- One element of `updates_metrics`. -/
structure MetricUpdate where
  user_id : String
  cluster : Option ℤ
  performance : Option Perf
deriving DecidableEq, Repr

/-- One `eq_metrics_history` record as fetched for reconciliation. -/
structure HistRecord where
  id : Option String := none
  user_id : Option String := none
  cluster : Option ℤ := none
  performance : Option Perf := none
deriving DecidableEq, Repr

/-- One element of `updates_history`. -/
structure HistUpdate where
  id : String
  cluster : Option ℤ
  performance : Option Perf
deriving DecidableEq, Repr

/-- Python truthiness of `record_id`. -/
def idTruthy : Option String → Bool
  | none => false
  | some s => s ≠ ""

/-- The sklearn computations of the retrain path that are external
floating-point algorithms (seeded k-means++ Lloyd iteration and a square
root), taken as parameters of the embedding. -/
structure SklearnFit where
  /-- `StandardScaler.fit`'s resulting `scale_` on the feature column
  (√ of the population variance, 1.0 for a zero-variance column). -/
  scale : List ℚ → ℚ
  /-- `KMeans(n_clusters=3, random_state=42, n_init='auto').fit_predict`
  on the scaled column: one cluster index per row. -/
  labels : List ℚ → List ℕ
  /-- the fitted `cluster_centers_` (flattened). -/
  centers : List ℚ → List ℚ

/-- `df.dropna(subset=feature_cols)` then
`df[df['total_sessions_analyzed'] > 0]`, keeping `(user_id, average_eq_score)`. -/
def validRows (data : List MetricRow) : List (String × ℚ) :=
  ((data.filterMap (fun r => r.average_eq_score.map (fun q => (r.user_id, q, r.total_sessions_analyzed))))
    |>.filter (fun t => 0 < t.2.2)) |>.map (fun t => (t.1, t.2.1))

/-- `df.groupby('ClusterIndex')['average_eq_score'].mean()` for one cluster
index, over rows paired with their fitted labels. -/
def meanScoreOf (rows : List ((String × ℚ) × ℕ)) (k : ℕ) : ℚ :=
  listMeanQ ((rows.filter (fun t => t.2 = k)).map (fun t => t.1.2))

/-- `…mean().sort_values(ascending=True).index`: the distinct cluster
indices present, sorted ascending by their mean feature value (groupby
yields the keys ascending; the value sort is stable on ties). -/
def clusterOrder (rows : List ((String × ℚ) × ℕ)) : List ℕ :=
  List.insertionSort (fun a b => meanScoreOf rows a ≤ meanScoreOf rows b)
    (List.insertionSort (· ≤ ·) (rows.map (·.2)).dedup)

/-- `user_final_state[u]`, as the fitted cluster index of the last `df` row
with that `user_id` (pandas keeps the last duplicate on `set_index`). -/
def userFinalState (rows : List ((String × ℚ) × ℕ)) (u : String) : Option ℕ :=
  ((rows.filter (fun t => t.1.1 = u)).getLast?).map (·.2)

/-- The reconciliation decision for one history record: produce an update
iff the record's user is in the refit batch, its id is truthy, and either
stored field differs from the user's final state. -/
def histUpdateFor (rows : List ((String × ℚ) × ℕ)) (pm : List (ℕ × Perf))
    (clm : List (ℕ × ℤ)) (r : HistRecord) : Option HistUpdate :=
  match r.user_id with
  | none => none
  | some u =>
      match userFinalState rows u, r.id with
      | some kidx, some rid =>
          if rid = "" then none
          else
            let fc := clm.lookup kidx
            let fp := pm.lookup kidx
            if r.cluster ≠ fc ∨ r.performance ≠ fp then some ⟨rid, fc, fp⟩ else none
      | _, _ => none

/-- The aborted / empty-state constant of the failed 3-cluster branch. -/
def noneState : ModelState := ⟨none, none, none, none⟩

/-- Outcome of one `retrain_model` run: the final global model state, the
`updates_metrics` and `updates_history` batches it submits, and whether a
new artifact was persisted. -/
structure RetrainResult where
  state : ModelState
  metric_updates : List MetricUpdate := []
  history_updates : List HistUpdate := []
  model_saved : Bool := false
deriving DecidableEq, Repr

/-- The standardized feature column `X_scaled` fed to the clustering fit. -/
def scaledX (skl : SklearnFit) (data : List MetricRow) : List ℚ :=
  let X := (validRows data).map (·.2)
  X.map (fun x => (x - listMeanQ X) / skl.scale X)

/-- The valid feature rows paired with their fitted cluster indices
(`df` with its `ClusterIndex` column). -/
def retrainRows (skl : SklearnFit) (data : List MetricRow) : List ((String × ℚ) × ℕ) :=
  (validRows data).zip (skl.labels (scaledX skl data))

/-- The new `perf_map` of a successful retrain: cluster indices in
ascending-mean order paired with HIGH, MEDIUM, LOW. -/
def retrainPerfMap (skl : SklearnFit) (data : List MetricRow) : List (ℕ × Perf) :=
  (clusterOrder (retrainRows skl data)).zip [Perf.HIGH, Perf.MEDIUM, Perf.LOW]

/-- The new `cluster_label_map` of a successful retrain: cluster indices in
ascending-mean order paired with 1, 2, 3. -/
def retrainClusterLabelMap (skl : SklearnFit) (data : List MetricRow) : List (ℕ × ℤ) :=
  (clusterOrder (retrainRows skl data)).zip ([1, 2, 3] : List ℤ)

/-- `retrain_model` over fetched metric rows and history records. -/
def retrain_model (skl : SklearnFit) (st : ModelState) (data : List MetricRow)
    (history : List HistRecord) : RetrainResult :=
  if data.length < 3 then { state := st }
  else if (validRows data).length < 3 then { state := st }
  else if (clusterOrder (retrainRows skl data)).length = 3 then
    { state :=
        { scaler := some { stats := some (listMeanQ ((validRows data).map (·.2)),
                                          skl.scale ((validRows data).map (·.2))) },
          kmeans := some { n_clusters := 3,
                           centers := some (skl.centers (scaledX skl data)) },
          perf_map := some (retrainPerfMap skl data),
          cluster_label_map := some (retrainClusterLabelMap skl data) },
      metric_updates := (retrainRows skl data).map (fun t =>
        { user_id := t.1.1,
          cluster := (retrainClusterLabelMap skl data).lookup t.2,
          performance := (retrainPerfMap skl data).lookup t.2 }),
      history_updates := history.filterMap
        (histUpdateFor (retrainRows skl data) (retrainPerfMap skl data)
          (retrainClusterLabelMap skl data)),
      model_saved := true }
  else { state := noneState }

/-! ## Store-side effect of the submitted batches -/

/-- Effect of `update_eq_metrics_history_batch` on one stored record:
each update rewrites the row with its id (history ids are unique in the
store). -/
def applyHistUpdates (ups : List HistUpdate) (r : HistRecord) : HistRecord :=
  match r.id with
  | some rid =>
      match ups.find? (fun u => u.id = rid) with
      | some u => { r with cluster := u.cluster, performance := u.performance }
      | none => r
  | none => r

/-- Effect of `update_eq_metrics_batch` on the profile (`eq_metrics`) of one
user: sequential upserts, so the last update for the user wins. -/
def profileAfter (ups : List MetricUpdate) (u : String) : Option (Option ℤ × Option Perf) :=
  ((ups.filter (fun m => m.user_id = u)).getLast?).map (fun m => (m.cluster, m.performance))

/-! ## Concrete instances used by witnesses and counterexamples -/

/-- A previously fitted model state. -/
def fittedState : ModelState :=
  { scaler := some { stats := some (0, 1) },
    kmeans := some { n_clusters := 3, centers := some [-1, 0, 1] },
    perf_map := some [(0, .HIGH), (1, .MEDIUM), (2, .LOW)],
    cluster_label_map := some [(0, 1), (1, 2), (2, 3)] }

/-- A fit whose k-means collapses every row into one cluster (as happens on
(near-)identical feature values). -/
def sklDegenerate : SklearnFit :=
  { scale := fun _ => 1,
    labels := fun xs => List.replicate xs.length 0,
    centers := fun _ => [0] }

/-- A fit assigning three rows to three distinct clusters in a permuted
order. -/
def sklPermuted : SklearnFit :=
  { scale := fun _ => 1,
    labels := fun xs => List.take xs.length [2, 0, 1],
    centers := fun _ => [0, 0, 0] }

/-- Three valid metric rows with distinct integer scores. -/
def threeRows : List MetricRow :=
  [{ user_id := "u1", average_eq_score := some 1, total_sessions_analyzed := 1 },
   { user_id := "u2", average_eq_score := some 2, total_sessions_analyzed := 1 },
   { user_id := "u3", average_eq_score := some 3, total_sessions_analyzed := 1 }]

/-- A stale history record of user u1. -/
def recW : HistRecord :=
  { id := some "h1", user_id := some "u1", cluster := some 9, performance := some .LOW }

/-- A one-record history table. -/
def histW : List HistRecord := [recW]

/-! ## Scoring lemmas -/

theorem pair_score_raw_cases (p c : Option String) :
    pair_score_raw p c = 0 ∨ pair_score_raw p c = 8 ∨ pair_score_raw p c = 11 := by
  unfold pair_score_raw
  cases hp : parse_error_type p <;> cases hc : parse_error_type c <;>
    simp [ETYPE_SAME_PENALTY, ETYPE_DIFF_PENALTY]
  refine Or.inr ((em _).symm)

/-- The score component of `calculate_session_eq` on a session of ≥ 2 events. -/
theorem calculate_session_eq_score (evs : List FeedbackEvent) (h2 : ¬ evs.length < 2) :
    (calculate_session_eq evs).1 =
      if pair_scores_list (evs.map (·.error_snapshot)) = [] then 0
      else listMeanQ (pair_scores_list (evs.map (·.error_snapshot))) := by
  unfold calculate_session_eq
  rw [if_neg h2]

/-- The counts component of `calculate_session_eq` on a session of ≥ 2 events. -/
theorem calculate_session_eq_counts (evs : List FeedbackEvent) (h2 : ¬ evs.length < 2) :
    (calculate_session_eq evs).2 = session_counts (evs.map (·.error_snapshot)) := by
  unfold calculate_session_eq
  rw [if_neg h2]

theorem normalized_eq_div (p c : Option String) :
    normalized_score p c = (pair_score_raw p c : ℚ) / 11 := by
  rw [normalized_score]
  norm_num [MAX_PENALTY, ETYPE_SAME_PENALTY, ETYPE_DIFF_PENALTY]

theorem normalized_score_mem (p c : Option String) :
    normalized_score p c = 0 ∨ normalized_score p c = 8 / 11 ∨ normalized_score p c = 1 := by
  rcases pair_score_raw_cases p c with h | h | h <;> rw [normalized_eq_div, h] <;> norm_num

theorem pair_scores_list_eq : ∀ snaps : List (Option String),
    pair_scores_list snaps = (includedPairs snaps).map (fun pc => normalized_score pc.1 pc.2)
  | [] => rfl
  | [_] => rfl
  | p :: c :: rest => by
      have ih := pair_scores_list_eq (c :: rest)
      simp only [includedPairs, List.tail_cons, List.zip_cons_cons, List.filter_cons] at *
      by_cases h : pairIncluded p c <;>
        simp [pair_scores_list, h, ih]

theorem listMeanQ_mem_bounds (l : List ℚ) (hne : l ≠ [])
    (h : ∀ x ∈ l, 0 ≤ x ∧ x ≤ 1) : 0 ≤ listMeanQ l ∧ listMeanQ l ≤ 1 := by
  have hl : 0 < (l.length : ℚ) := by
    have := List.length_pos.mpr hne
    exact_mod_cast this
  constructor
  · exact div_nonneg (List.sum_nonneg fun x hx => (h x hx).1) hl.le
  · rw [listMeanQ, div_le_one hl]
    calc l.sum ≤ l.length • (1 : ℚ) := List.sum_le_card_nsmul l 1 fun x hx => (h x hx).2
    _ = l.length := by simp

/-- **C2**: for every consecutive pair of a session included in scoring,
the normalized pair score is exactly 1 when both events classify to the
same type, exactly 8/11 when both classify to different types, exactly 0
when either fails to classify; hence every pair score lies in
{0, 8/11, 1}. -/
theorem C2_pair_score_values (evs : List FeedbackEvent) (p c : Option String)
    (_hmem : (p, c) ∈ includedPairs (evs.map (·.error_snapshot))) :
    (∀ t, parse_error_type p = some t → parse_error_type c = some t →
        normalized_score p c = 1)
    ∧ (∀ tp tc, parse_error_type p = some tp → parse_error_type c = some tc → tp ≠ tc →
        normalized_score p c = 8 / 11)
    ∧ ((parse_error_type p = none ∨ parse_error_type c = none) → normalized_score p c = 0)
    ∧ (normalized_score p c = 0 ∨ normalized_score p c = 8 / 11 ∨ normalized_score p c = 1) := by
  refine ⟨?_, ?_, ?_, normalized_score_mem p c⟩
  · intro t h1 h2
    rw [normalized_eq_div]
    unfold pair_score_raw
    rw [h1, h2]
    norm_num [ETYPE_SAME_PENALTY]
  · intro tp tc h1 h2 hne
    rw [normalized_eq_div]
    unfold pair_score_raw
    rw [h1, h2]
    simp only [if_neg hne]
    norm_num [ETYPE_DIFF_PENALTY]
  · intro h
    rw [normalized_eq_div]
    unfold pair_score_raw
    rcases h with h | h <;> rw [h] <;> cases hc : parse_error_type c <;>
      cases hp : parse_error_type p <;> simp

/-- Witness for C2 at a concrete included pair with two different types. -/
theorem C2_pair_score_values_witness :
    normalized_score (some "A.java:1: error: cannot find symbol")
      (some "B.java:2: error: ; expected") = 8 / 11 :=
  (C2_pair_score_values
      [{ error_snapshot := some "A.java:1: error: cannot find symbol" },
       { error_snapshot := some "B.java:2: error: ; expected" }] _ _ (by decide)).2.1
    .error_cannot_find_symbol .error_semicolon_expected (by decide) (by decide) (by decide)

/-- **C3**: consecutive pairs with identical (present) raw messages are
excluded from scoring entirely; the session score is the mean of the
included pair scores only, and 0.0 when every pair is excluded. -/
theorem C3_identical_pairs_excluded (evs : List FeedbackEvent) :
    (∀ p c m, p = some m → c = some m →
        (p, c) ∉ includedPairs (evs.map (·.error_snapshot)))
    ∧ pair_scores_list (evs.map (·.error_snapshot)) =
        (includedPairs (evs.map (·.error_snapshot))).map
          (fun pc => normalized_score pc.1 pc.2)
    ∧ (2 ≤ evs.length →
        (calculate_session_eq evs).1 =
          if includedPairs (evs.map (·.error_snapshot)) = [] then 0
          else listMeanQ (pair_scores_list (evs.map (·.error_snapshot))))
    ∧ (includedPairs (evs.map (·.error_snapshot)) = [] →
        (calculate_session_eq evs).1 = 0) := by
  have hchar := pair_scores_list_eq (evs.map (·.error_snapshot))
  have hif : 2 ≤ evs.length →
      (calculate_session_eq evs).1 =
        if includedPairs (evs.map (·.error_snapshot)) = [] then 0
        else listMeanQ (pair_scores_list (evs.map (·.error_snapshot))) := by
    intro h2
    unfold calculate_session_eq
    rw [if_neg (by omega)]
    simp only [hchar, List.map_eq_nil_iff]
  refine ⟨?_, hchar, hif, ?_⟩
  · intro p c m hp hc
    subst hp; subst hc
    simp [includedPairs, List.mem_filter, pairIncluded]
  · intro hnone
    by_cases h2 : 2 ≤ evs.length
    · rw [hif h2, if_pos hnone]
    · unfold calculate_session_eq
      rw [if_pos (by omega)]

/-- Witness for C3: a session of two events with identical raw messages
scores 0.0. -/
theorem C3_identical_pairs_excluded_witness :
    (calculate_session_eq [{ error_snapshot := some "Main.java:4: error: not a statement" },
                           { error_snapshot := some "Main.java:4: error: not a statement" }]).1
      = 0 :=
  (C3_identical_pairs_excluded _).2.2.2 (by decide)

/-- **C5 counterexample**: a session with exactly one usable (included)
pair — fewer than two — whose events both classify to the same type has
session score 1.0, not 0.0, refuting "exactly 0.0 whenever the session has
fewer than two usable event pairs". -/
theorem C5_counterexample :
    (includedPairs ([{ error_snapshot := some "A.java:1: error: cannot find symbol" },
        { error_snapshot := some "B.java:2: error: cannot find symbol x" }].map
          (fun e : FeedbackEvent => e.error_snapshot))).length < 2
    ∧ (calculate_session_eq
        [{ error_snapshot := some "A.java:1: error: cannot find symbol" },
         { error_snapshot := some "B.java:2: error: cannot find symbol x" }]).1 = 1 := by
  refine ⟨by decide, ?_⟩
  have h1 : pair_scores_list
      ([{ error_snapshot := some "A.java:1: error: cannot find symbol" },
        { error_snapshot := some "B.java:2: error: cannot find symbol x" }].map
          (fun e : FeedbackEvent => e.error_snapshot)) =
      [normalized_score (some "A.java:1: error: cannot find symbol")
        (some "B.java:2: error: cannot find symbol x")] := by
    simp only [List.map_cons, List.map_nil, pair_scores_list]
    rw [if_pos (by decide)]
    simp
  rw [calculate_session_eq_score _ (by decide), h1]
  rw [if_neg (by simp)]
  rw [listMeanQ]
  rw [normalized_eq_div,
    show pair_score_raw (some "A.java:1: error: cannot find symbol")
      (some "B.java:2: error: cannot find symbol x") = 11 from by decide]
  norm_num

/-- **C5 (amended)**: the session score always lies in [0,1]; it is exactly
0.0 whenever the session has **no** usable event pair (in particular for
fewer than 2 events), and a single-event session still contributes to the
counted-type map. -/
theorem C5_amended (evs : List FeedbackEvent) :
    (0 ≤ (calculate_session_eq evs).1 ∧ (calculate_session_eq evs).1 ≤ 1)
    ∧ (includedPairs (evs.map (·.error_snapshot)) = [] →
        (calculate_session_eq evs).1 = 0)
    ∧ (evs.length < 2 → (calculate_session_eq evs).1 = 0)
    ∧ (∀ e, evs = [e] →
        (calculate_session_eq evs).2 = event_counts e.error_snapshot) := by
  refine ⟨?_, ?_, ?_, ?_⟩
  · unfold calculate_session_eq
    split
    · norm_num
    · simp only
      split
      · norm_num
      · refine listMeanQ_mem_bounds _ (by assumption) ?_
        intro x hx
        rw [pair_scores_list_eq] at hx
        obtain ⟨pc, _, hpc⟩ := List.mem_map.mp hx
        rcases normalized_score_mem pc.1 pc.2 with h | h | h <;> rw [← hpc, h] <;> norm_num
  · intro hnone
    by_cases h2 : evs.length < 2
    · unfold calculate_session_eq; rw [if_pos h2]
    · unfold calculate_session_eq
      rw [if_neg h2]
      simp only [pair_scores_list_eq, hnone, List.map_nil, if_pos]
  · intro h2
    unfold calculate_session_eq; rw [if_pos h2]
  · intro e he
    subst he
    unfold calculate_session_eq
    rw [if_pos (by simp)]

/-- Witness for C5 (amended): a 1-event session scores 0 and its event's
counted types are recorded. -/
theorem C5_amended_witness :
    (calculate_session_eq [{ error_snapshot := some "error: illegal start of type" }]).1 = 0
    ∧ (calculate_session_eq [{ error_snapshot := some "error: illegal start of type" }]).2
        = event_counts (some "error: illegal start of type") :=
  ⟨(C5_amended _).2.2.1 (by decide),
   (C5_amended [{ error_snapshot := some "error: illegal start of type" }]).2.2.2 _ rfl⟩

/-- **C10**: `get_specific_error_counts` ranges over exactly the 6 counted
types, each count is 0 or 1 (an event matching a pattern several times
still contributes at most 1), and a non-string or blank input yields
all-zero counts. -/
theorem C10_counts (snap : Option String) :
    (∀ t, get_specific_error_counts snap t ≤ 1)
    ∧ Fintype.card CountedType = 6
    ∧ (snap = none → ∀ t, get_specific_error_counts snap t = 0)
    ∧ (∀ s, snap = some s → pyBlank s = true → ∀ t, get_specific_error_counts snap t = 0) := by
  refine ⟨?_, by decide, ?_, ?_⟩
  · intro t
    cases snap with
    | none => simp [get_specific_error_counts]
    | some s =>
        simp only [get_specific_error_counts]
        split
        · simp
        · simp only []
          split <;> simp
  · rintro rfl t; rfl
  · rintro s rfl hb t
    simp [get_specific_error_counts, hb]

/-- Witness for C10: a snapshot matching `cannot find symbol` twice still
counts 1, and a `none` snapshot counts 0. -/
theorem C10_counts_witness :
    get_specific_error_counts (some "cannot find symbol a\ncannot find symbol b")
      CountedType.error_cannot_find_symbol ≤ 1
    ∧ get_specific_error_counts none CountedType.error_constructor = 0 :=
  ⟨(C10_counts _).1 _, (C10_counts none).2.2.1 rfl _⟩

/-! ## Session-walk lemmas -/

theorem sessionWalk_flatten (g : ℤ) : ∀ (l : List PEv) (last : ℤ) (cur : List PEv),
    (sessionWalk g l last cur).flatten = cur ++ l
  | [], _, cur => by
      by_cases h : cur = [] <;> simp [sessionWalk, h]
  | e :: rest, last, cur => by
      have ih1 := sessionWalk_flatten g rest e.2 [e]
      have ih2 := sessionWalk_flatten g rest e.2 (cur ++ [e])
      by_cases hgap : g < e.2 - last <;> by_cases hc : cur = [] <;>
        simp [sessionWalk, hgap, hc, ih1, ih2]

theorem sessionWalk_ne_nil (g : ℤ) : ∀ (l : List PEv) (last : ℤ) (cur : List PEv),
    ∀ s ∈ sessionWalk g l last cur, s ≠ []
  | [], _, cur => by
      by_cases h : cur = [] <;> simp [sessionWalk, h]
  | e :: rest, last, cur => by
      intro s hs
      have ih1 := sessionWalk_ne_nil g rest e.2 [e]
      have ih2 := sessionWalk_ne_nil g rest e.2 (cur ++ [e])
      by_cases hgap : g < e.2 - last <;> by_cases hc : cur = [] <;>
        simp only [sessionWalk, hgap, hc, if_pos, if_neg, if_true, if_false,
          reduceIte, List.nil_append, List.mem_append, List.mem_singleton] at hs
      · exact ih1 s hs
      · rcases hs with hs | hs
        · subst hs; exact hc
        · exact ih1 s hs
      · exact ih1 s hs
      · exact ih2 s hs

theorem sessionWalk_head (g : ℤ) : ∀ (l : List PEv) (last : ℤ) (cur : List PEv),
    cur ≠ [] → ∃ s ss, sessionWalk g l last cur = s :: ss ∧ s.head? = cur.head?
  | [], _, cur => by
      intro hc
      exact ⟨cur, [], by simp [sessionWalk, hc], rfl⟩
  | e :: rest, last, cur => by
      intro hc
      by_cases hgap : g < e.2 - last
      · refine ⟨cur, sessionWalk g rest e.2 [e], ?_, rfl⟩
        simp [sessionWalk, hgap, hc]
      · obtain ⟨s, ss, heq, hh⟩ := sessionWalk_head g rest e.2 (cur ++ [e]) (by simp)
        refine ⟨s, ss, ?_, ?_⟩
        · simp [sessionWalk, hgap, heq]
        · rw [hh, List.head?_append_of_ne_nil _ hc]

theorem sessionWalk_chain (g : ℤ) : ∀ (l : List PEv) (last : ℤ) (cur : List PEv),
    List.Chain' (withinGap g) cur →
    (∀ a, cur.getLast? = some a → a.2 = last) →
    List.Chain' timeLe l →
    (∀ f, l.head? = some f → last ≤ f.2) →
    ∀ s ∈ sessionWalk g l last cur, List.Chain' (withinGap g) s
  | [], _, cur => by
      intro hcur _ _ _ s hs
      by_cases h : cur = [] <;> simp [sessionWalk, h] at hs
      exact hs ▸ hcur
  | e :: rest, last, cur => by
      intro hcur hlast hsort hle s hs
      have hsort' : List.Chain' timeLe rest := hsort.tail
      have hle' : ∀ f, rest.head? = some f → e.2 ≤ f.2 := by
        intro f hf
        exact (List.chain'_cons'.mp hsort).1 f hf
      have hlaste : e.2 ≥ last := hle e rfl
      by_cases hgap : g < e.2 - last
      · have ih := sessionWalk_chain g rest e.2 [e] (List.chain'_singleton e)
          (by intro a ha; simp at ha; subst ha; rfl) hsort' hle'
        by_cases hc : cur = [] <;>
          simp only [sessionWalk, hgap, hc, if_true, if_false, reduceIte,
            List.nil_append, List.mem_append, List.mem_singleton] at hs
        · exact ih s hs
        · rcases hs with hs | hs
          · exact hs ▸ hcur
          · exact ih s hs
      · have hgap' : e.2 - last ≤ g := by omega
        have hchain2 : List.Chain' (withinGap g) (cur ++ [e]) := by
          rw [List.chain'_append]
          refine ⟨hcur, List.chain'_singleton e, ?_⟩
          intro x hx y hy
          simp at hy
          subst hy
          have hx2 : x.2 = last := hlast x (by simpa using hx)
          exact ⟨by omega, by omega⟩
        have ih := sessionWalk_chain g rest e.2 (cur ++ [e]) hchain2
          (by intro a ha; rw [List.getLast?_concat] at ha; injection ha with h; subst h; rfl)
          hsort' hle'
        simp only [sessionWalk, hgap, if_false, reduceIte] at hs
        exact ih s hs

theorem sessionWalk_boundary (g : ℤ) : ∀ (l : List PEv) (last : ℤ) (cur : List PEv),
    cur ≠ [] →
    (∀ a, cur.getLast? = some a → a.2 = last) →
    List.Chain' (sessGap g) (sessionWalk g l last cur)
  | [], _, cur => by
      intro hc _
      simp [sessionWalk, hc]
  | e :: rest, last, cur => by
      intro hc hlast
      by_cases hgap : g < e.2 - last
      · have ih := sessionWalk_boundary g rest e.2 [e] (by simp)
          (by intro a ha; simp at ha; subst ha; rfl)
        simp only [sessionWalk, hgap, hc, if_true, if_false, reduceIte]
        rw [List.singleton_append, List.chain'_cons']
        refine ⟨?_, ih⟩
        intro y hy
        obtain ⟨s, ss, heq, hh⟩ := sessionWalk_head g rest e.2 [e] (by simp)
        rw [heq] at hy
        simp at hy
        subst hy
        intro a b ha hb
        rw [hh] at hb
        simp at hb
        subst hb
        have := hlast a ha
        omega
      · have ih := sessionWalk_boundary g rest e.2 (cur ++ [e]) (by simp)
          (by intro a ha; rw [List.getLast?_concat] at ha; injection ha with h; subst h; rfl)
        simpa [sessionWalk, hgap] using ih

/-- **C4**: `identify_sessions` partitions the parseable events: the
returned sessions flatten to a permutation of the surviving events, every
session is non-empty and internally ascending with intra-session gaps at
most the threshold, adjacent sessions are separated by a gap strictly
exceeding the threshold, and no parseable events yields no sessions. -/
theorem C4_identify_sessions (parseTs : String → Option ℤ) (g : ℤ)
    (events : List FeedbackEvent) :
    ((identify_sessions parseTs events g).flatten.Perm (parsedEvents parseTs events))
    ∧ (∀ s ∈ identify_sessions parseTs events g, s ≠ [])
    ∧ (∀ s ∈ identify_sessions parseTs events g, List.Chain' timeLe s)
    ∧ (∀ s ∈ identify_sessions parseTs events g, List.Chain' (withinGap (60 * g)) s)
    ∧ List.Chain' (sessGap (60 * g)) (identify_sessions parseTs events g)
    ∧ (parsedEvents parseTs events = [] → identify_sessions parseTs events g = []) := by
  by_cases hev : events = []
  · subst hev
    refine ⟨?_, ?_, ?_, ?_, ?_, ?_⟩ <;> simp [identify_sessions, parsedEvents]
  by_cases hp : parsedEvents parseTs events = []
  · refine ⟨?_, ?_, ?_, ?_, ?_, ?_⟩ <;> simp [identify_sessions, hev, hp]
  have hperm := List.perm_insertionSort timeLe (parsedEvents parseTs events)
  have hsorted := List.sorted_insertionSort timeLe (parsedEvents parseTs events)
  cases hs : List.insertionSort timeLe (parsedEvents parseTs events) with
  | nil =>
      exfalso
      rw [hs] at hperm
      exact hp (hperm.symm.eq_nil)
  | cons e0 rest =>
      rw [hs] at hperm hsorted
      have hS : identify_sessions parseTs events g = sessionWalk (60 * g) rest e0.2 [e0] := by
        unfold identify_sessions
        rw [if_neg hev, if_neg hp, hs]
      have hchain : List.Chain' timeLe (e0 :: rest) := hsorted.chain'
      have hflat : (sessionWalk (60 * g) rest e0.2 [e0]).flatten = e0 :: rest := by
        rw [sessionWalk_flatten]
        rfl
      have hwgchain := sessionWalk_chain (60 * g) rest e0.2 [e0]
        (List.chain'_singleton e0)
        (by intro a ha; simp at ha; subst ha; rfl)
        hchain.tail
        (fun f hf => (List.chain'_cons'.mp hchain).1 f hf)
      refine ⟨?_, ?_, ?_, ?_, ?_, fun h => absurd h hp⟩
      · rw [hS, hflat]
        exact hperm
      · rw [hS]
        exact sessionWalk_ne_nil (60 * g) rest e0.2 [e0]
      · rw [hS]
        intro s hsmem
        exact (hwgchain s hsmem).imp (fun a b h => h.1)
      · rw [hS]
        exact hwgchain
      · rw [hS]
        exact sessionWalk_boundary (60 * g) rest e0.2 [e0] (by simp)
          (by intro a ha; simp at ha; subst ha; rfl)

/-! ## Retraining abort behavior (C1) -/

/-- **C1 counterexample**: a retrain over three valid rows whose fit yields
only one distinct cluster aborts, but clears the model state (all four
globals set to `None`) instead of leaving the previously fitted state in
place; no assignments are produced. -/
theorem C1_counterexample :
    (clusterOrder (retrainRows sklDegenerate threeRows)).length ≠ 3
    ∧ (retrain_model sklDegenerate fittedState threeRows []).state ≠ fittedState
    ∧ (retrain_model sklDegenerate fittedState threeRows []).state = noneState
    ∧ (retrain_model sklDegenerate fittedState threeRows []).metric_updates = []
    ∧ (retrain_model sklDegenerate fittedState threeRows []).history_updates = [] := by
  refine ⟨by decide, by decide, by decide, by decide, by decide⟩

/-- **C1 (amended)**: an abort for fewer than 3 rows (raw or valid) leaves
the model state unchanged and produces no assignments; an abort because
the fit does not yield exactly 3 distinct clusters also produces no
assignments but clears the in-memory model state to `None` (to be
re-loaded from the last persisted artifact on the next prediction),
rather than leaving it unchanged. -/
theorem C1_abort_behavior (skl : SklearnFit) (st : ModelState) (data : List MetricRow)
    (history : List HistRecord) :
    (data.length < 3 → retrain_model skl st data history = { state := st })
    ∧ ((validRows data).length < 3 → retrain_model skl st data history = { state := st })
    ∧ (3 ≤ data.length → 3 ≤ (validRows data).length →
        (clusterOrder (retrainRows skl data)).length ≠ 3 →
        retrain_model skl st data history = { state := noneState }) := by
  refine ⟨?_, ?_, ?_⟩
  · intro h
    unfold retrain_model
    rw [if_pos h]
  · intro h
    unfold retrain_model
    by_cases hd : data.length < 3
    · rw [if_pos hd]
    · rw [if_neg hd, if_pos h]
  · intro hd hv h3
    unfold retrain_model
    rw [if_neg (by omega), if_neg (by omega), if_neg h3]

/-- Witness for C1 (amended): retraining with no rows leaves the fitted
state untouched and produces nothing. -/
theorem C1_abort_behavior_witness :
    retrain_model sklDegenerate fittedState [] [] = { state := fittedState } :=
  (C1_abort_behavior sklDegenerate fittedState [] []).1 (by decide)

/-! ## Prediction defaults (C8) -/

theorem predictFitted_scaler_unfitted (st1 : ModelState) (x : ℚ)
    (sc : ScalerModel) (hsc : st1.scaler = some sc) (hstats : sc.stats = none)
    (km : KMeansModel) (hkm : st1.kmeans = some km)
    (pm : List (ℕ × Perf)) (hpm : st1.perf_map = some pm)
    (clm : List (ℕ × ℤ)) (hclm : st1.cluster_label_map = some clm) :
    predictFitted st1 x = .ok (.MEDIUM, 2) := by
  cases st1
  simp_all [predictFitted]

theorem predictFitted_kmeans_unfitted (st1 : ModelState) (x : ℚ)
    (sc : ScalerModel) (hsc : st1.scaler = some sc)
    (km : KMeansModel) (hkm : st1.kmeans = some km) (hcen : km.centers = none)
    (pm : List (ℕ × Perf)) (hpm : st1.perf_map = some pm)
    (clm : List (ℕ × ℤ)) (hclm : st1.cluster_label_map = some clm) :
    predictFitted st1 x = .ok (.MEDIUM, 2) := by
  cases st1
  cases hst : sc.stats <;> simp_all [predictFitted]

theorem componentsMissing_false (st1 : ModelState) (h : componentsMissing st1 = false) :
    ∃ sc km pm clm, st1 = ⟨some sc, some km, some pm, some clm⟩ := by
  obtain ⟨s, k, p, c⟩ := st1
  cases s <;> cases k <;> cases p <;> cases c <;>
    first
      | exact ⟨_, _, _, _, rfl⟩
      | simp [componentsMissing] at h

theorem predictFitted_ne_error (st1 : ModelState) (x : ℚ)
    (h : componentsMissing st1 = false) : predictFitted st1 x ≠ .error () := by
  obtain ⟨sc, km, pm, clm, rfl⟩ := componentsMissing_false st1 h
  cases hst : sc.stats <;> cases hcen : km.centers <;> simp [predictFitted, hst, hcen]

/-- **C8**: prediction on a constructed model whose scaler or KMeans has
never been fitted returns the default `(MEDIUM, 2)` rather than failing;
the model-unavailable error is raised only when the components are still
missing even after `load_model` ran. -/
theorem C8_predict_default (artifact : Option Artifact) (st : ModelState) (x : ℚ) :
    (componentsMissing (predict_performance artifact st x).2 = false →
      ((∃ sc, (predict_performance artifact st x).2.scaler = some sc ∧ sc.stats = none)
        ∨ (∃ km, (predict_performance artifact st x).2.kmeans = some km ∧ km.centers = none)) →
      (predict_performance artifact st x).1 = Except.ok (Perf.MEDIUM, 2))
    ∧ ((predict_performance artifact st x).1 = Except.error () →
        componentsMissing st = true ∧ componentsMissing (load_model artifact) = true) := by
  have main : ∀ st1 : ModelState, componentsMissing st1 = false →
      ((∃ sc, st1.scaler = some sc ∧ sc.stats = none)
        ∨ (∃ km, st1.kmeans = some km ∧ km.centers = none)) →
      predictFitted st1 x = .ok (.MEDIUM, 2) := by
    intro st1 h1 hun
    obtain ⟨sc, km, pm, clm, rfl⟩ := componentsMissing_false st1 h1
    rcases hun with ⟨sc', hsc', hnone⟩ | ⟨km', hkm', hnone⟩
    · injection hsc' with h'
      subst h'
      exact predictFitted_scaler_unfitted _ x _ rfl hnone km rfl pm rfl clm rfl
    · injection hkm' with h'
      subst h'
      exact predictFitted_kmeans_unfitted _ x sc rfl _ rfl hnone pm rfl clm rfl
  unfold predict_performance
  by_cases hm : componentsMissing st
  · rw [if_pos hm]
    by_cases hm1 : componentsMissing (load_model artifact)
    · rw [if_pos hm1]
      dsimp only
      refine ⟨fun hfalse => absurd hfalse (by rw [hm1]; simp), fun _ => ⟨hm, hm1⟩⟩
    · rw [if_neg hm1]
      dsimp only
      refine ⟨fun _ hun => main _ (by simpa using hm1) hun, fun herr => ?_⟩
      exact absurd herr (predictFitted_ne_error _ x (by simpa using hm1))
  · rw [if_neg hm]
    dsimp only
    refine ⟨fun _ hun => main _ (by simpa using hm) hun, fun herr => ?_⟩
    exact absurd herr (predictFitted_ne_error _ x (by simpa using hm))

/-- Witness for C8: prediction on the default (constructed, unfitted)
model returns (MEDIUM, 2). -/
theorem C8_predict_default_witness :
    (predict_performance none defaultModelState (1 : ℚ)).1 = Except.ok (Perf.MEDIUM, 2) :=
  (C8_predict_default none defaultModelState 1).1 rfl
    (Or.inl ⟨{ stats := none }, rfl, rfl⟩)

/-! ## Cluster ordering on successful retrains (C6) -/

theorem clusterOrder_nodup (rows : List ((String × ℚ) × ℕ)) : (clusterOrder rows).Nodup := by
  unfold clusterOrder
  have h1 : ((rows.map (·.2)).dedup).Nodup := List.nodup_dedup _
  have h2 := List.perm_insertionSort (· ≤ ·) ((rows.map (·.2)).dedup)
  have h3 := (h2.nodup_iff).mpr h1
  have h4 := List.perm_insertionSort
    (fun a b => meanScoreOf rows a ≤ meanScoreOf rows b)
    (List.insertionSort (· ≤ ·) ((rows.map (·.2)).dedup))
  exact (h4.nodup_iff).mpr h3

theorem clusterOrder_sorted (rows : List ((String × ℚ) × ℕ)) :
    List.Sorted (fun a b => meanScoreOf rows a ≤ meanScoreOf rows b) (clusterOrder rows) := by
  haveI : IsTotal ℕ (fun a b => meanScoreOf rows a ≤ meanScoreOf rows b) :=
    ⟨fun a b => le_total _ _⟩
  haveI : IsTrans ℕ (fun a b => meanScoreOf rows a ≤ meanScoreOf rows b) :=
    ⟨fun a b c hab hbc => le_trans hab hbc⟩
  exact List.sorted_insertionSort _ _

/-- **C6**: every successful retrain sorts the three distinct fitted
cluster indices ascending by mean `average_eq_score` and assigns them
ordinal labels 1,2,3 and performance HIGH,MEDIUM,LOW in that order (both
maps bijections on the three distinct indices); in particular, three users
with average scores 0.1, 0.5, 0.9 receive (HIGH,1), (MEDIUM,2), (LOW,3)
whenever the fit separates them into three distinct clusters. -/
theorem C6_ordering_and_scenario :
    (∀ (skl : SklearnFit) (st : ModelState) (data : List MetricRow)
        (history : List HistRecord),
      ¬ data.length < 3 → ¬ (validRows data).length < 3 →
      (clusterOrder (retrainRows skl data)).length = 3 →
      ∃ k0 k1 k2, clusterOrder (retrainRows skl data) = [k0, k1, k2]
        ∧ meanScoreOf (retrainRows skl data) k0 ≤ meanScoreOf (retrainRows skl data) k1
        ∧ meanScoreOf (retrainRows skl data) k1 ≤ meanScoreOf (retrainRows skl data) k2
        ∧ k0 ≠ k1 ∧ k0 ≠ k2 ∧ k1 ≠ k2
        ∧ (retrain_model skl st data history).state.perf_map
            = some [(k0, Perf.HIGH), (k1, Perf.MEDIUM), (k2, Perf.LOW)]
        ∧ (retrain_model skl st data history).state.cluster_label_map
            = some [(k0, (1 : ℤ)), (k1, 2), (k2, 3)])
    ∧ (∀ (skl : SklearnFit) (st : ModelState) (history : List HistRecord)
        (u1 u2 u3 : String) (a b c : ℕ),
      a < 3 → b < 3 → c < 3 → a ≠ b → a ≠ c → b ≠ c →
      skl.labels (scaledX skl
        [{ user_id := u1, average_eq_score := some (1/10), total_sessions_analyzed := 1 },
         { user_id := u2, average_eq_score := some (1/2), total_sessions_analyzed := 1 },
         { user_id := u3, average_eq_score := some (9/10), total_sessions_analyzed := 1 }])
        = [a, b, c] →
      (retrain_model skl st
        [{ user_id := u1, average_eq_score := some (1/10), total_sessions_analyzed := 1 },
         { user_id := u2, average_eq_score := some (1/2), total_sessions_analyzed := 1 },
         { user_id := u3, average_eq_score := some (9/10), total_sessions_analyzed := 1 }]
        history).metric_updates
        = [{ user_id := u1, cluster := some 1, performance := some .HIGH },
           { user_id := u2, cluster := some 2, performance := some .MEDIUM },
           { user_id := u3, cluster := some 3, performance := some .LOW }]) := by
  constructor
  · intro skl st data history hd hv h3
    obtain ⟨k0, k1, k2, horder⟩ := List.length_eq_three.mp h3
    have hs := clusterOrder_sorted (retrainRows skl data)
    have hn := clusterOrder_nodup (retrainRows skl data)
    rw [horder] at hs hn
    have h01 : meanScoreOf (retrainRows skl data) k0 ≤ meanScoreOf (retrainRows skl data) k1 :=
      (List.sorted_cons.mp hs).1 k1 (by simp)
    have h12 : meanScoreOf (retrainRows skl data) k1 ≤ meanScoreOf (retrainRows skl data) k2 :=
      (List.sorted_cons.mp (List.sorted_cons.mp hs).2).1 k2 (by simp)
    simp only [List.nodup_cons, List.mem_cons, List.mem_singleton, List.not_mem_nil,
      or_false, not_or, List.nodup_nil, and_true] at hn
    refine ⟨k0, k1, k2, horder, h01, h12, hn.1.1, hn.1.2, hn.2.1, ?_, ?_⟩
    · unfold retrain_model
      rw [if_neg hd, if_neg hv, if_pos h3]
      show some (retrainPerfMap skl data) = _
      rw [retrainPerfMap, horder]
      rfl
    · unfold retrain_model
      rw [if_neg hd, if_neg hv, if_pos h3]
      show some (retrainClusterLabelMap skl data) = _
      rw [retrainClusterLabelMap, horder]
      rfl
  · intro skl st history u1 u2 u3 a b c ha hb hc hab hac hbc hlab
    have hvd : validRows
        [{ user_id := u1, average_eq_score := some (1/10), total_sessions_analyzed := 1 },
         { user_id := u2, average_eq_score := some (1/2), total_sessions_analyzed := 1 },
         { user_id := u3, average_eq_score := some (9/10), total_sessions_analyzed := 1 }]
        = [(u1, 1/10), (u2, 1/2), (u3, 9/10)] := by
      simp [validRows, List.filterMap_cons, List.filter_cons]
    have hrows : retrainRows skl
        [{ user_id := u1, average_eq_score := some (1/10), total_sessions_analyzed := 1 },
         { user_id := u2, average_eq_score := some (1/2), total_sessions_analyzed := 1 },
         { user_id := u3, average_eq_score := some (9/10), total_sessions_analyzed := 1 }]
        = [((u1, 1/10), a), ((u2, 1/2), b), ((u3, 9/10), c)] := by
      rw [retrainRows, hvd, hlab]
      rfl
    interval_cases a <;> interval_cases b <;> interval_cases c <;>
      first
        | omega
        | (unfold retrain_model
           rw [if_neg (by norm_num), if_neg (by rw [hvd]; norm_num)]
           simp only [retrainPerfMap, retrainClusterLabelMap, hrows]
           norm_num [clusterOrder, meanScoreOf, listMeanQ, List.insertionSort,
             List.orderedInsert, List.dedup, List.pwFilter, List.lookup]
           try decide)

/-- Witness for C6: a concrete permuted 3-cluster fit over scores
0.1, 0.5, 0.9 yields (HIGH,1), (MEDIUM,2), (LOW,3). -/
theorem C6_ordering_and_scenario_witness :
    (retrain_model sklPermuted fittedState
        [{ user_id := "u1", average_eq_score := some (1/10), total_sessions_analyzed := 1 },
         { user_id := "u2", average_eq_score := some (1/2), total_sessions_analyzed := 1 },
         { user_id := "u3", average_eq_score := some (9/10), total_sessions_analyzed := 1 }]
        []).metric_updates
      = [{ user_id := "u1", cluster := some 1, performance := some .HIGH },
         { user_id := "u2", cluster := some 2, performance := some .MEDIUM },
         { user_id := "u3", cluster := some 3, performance := some .LOW }] :=
  C6_ordering_and_scenario.2 sklPermuted fittedState [] "u1" "u2" "u3" 2 0 1
    (by norm_num) (by norm_num) (by norm_num) (by norm_num) (by norm_num) (by norm_num)
    (by decide)

/-- Witness for C4 at a concrete parser and event list: two events 5
minutes apart share a session, one 40 minutes later opens a new one. -/
theorem C4_identify_sessions_witness :
    (identify_sessions
        (fun s => if s = "t0" then some 0 else if s = "t5" then some 300
                  else if s = "t45" then some 2700 else none)
        [{ created_at := some "t45" }, { created_at := some "bad" },
         { created_at := some "t0" }, { created_at := some "t5" }] 30).flatten.Perm
      (parsedEvents
        (fun s => if s = "t0" then some 0 else if s = "t5" then some 300
                  else if s = "t45" then some 2700 else none)
        [{ created_at := some "t45" }, { created_at := some "bad" },
         { created_at := some "t0" }, { created_at := some "t5" }]) :=
  (C4_identify_sessions _ 30 _).1

/-! ## Reconciliation (C7, C9) -/


theorem histUpdateFor_eq_some (rows : List ((String × ℚ) × ℕ)) (pm : List (ℕ × Perf))
    (clm : List (ℕ × ℤ)) (r : HistRecord) (upd : HistUpdate)
    (h : histUpdateFor rows pm clm r = some upd) :
    ∃ u kidx rid, r.user_id = some u ∧ userFinalState rows u = some kidx
      ∧ r.id = some rid ∧ rid ≠ ""
      ∧ upd = ⟨rid, clm.lookup kidx, pm.lookup kidx⟩ := by
  unfold histUpdateFor at h
  cases hu : r.user_id with
  | none =>
      simp only [hu] at h
      exact Option.noConfusion h
  | some u =>
      simp only [hu] at h
      cases hk : userFinalState rows u with
      | none =>
          simp only [hk] at h
          exact Option.noConfusion h
      | some kidx =>
          cases hrid : r.id with
          | none =>
              simp only [hk, hrid] at h
              exact Option.noConfusion h
          | some rid =>
              simp only [hk, hrid] at h
              by_cases hne : rid = ""
              · rw [if_pos hne] at h; cases h
              · rw [if_neg hne] at h
                by_cases hcond : (r.cluster ≠ clm.lookup kidx ∨ r.performance ≠ pm.lookup kidx)
                · rw [if_pos hcond] at h
                  injection h with h'
                  exact ⟨u, kidx, rid, rfl, hk, rfl, hne, h'.symm⟩
                · rw [if_neg hcond] at h; cases h

theorem histUpdateFor_none_of_skip (rows : List ((String × ℚ) × ℕ)) (pm : List (ℕ × Perf))
    (clm : List (ℕ × ℤ)) (r : HistRecord)
    (hskip : (∀ u, r.user_id = some u → userFinalState rows u = none)
             ∨ idTruthy r.id = false) :
    histUpdateFor rows pm clm r = none := by
  unfold histUpdateFor
  cases hu : r.user_id with
  | none => rfl
  | some u =>
      simp only
      rcases hskip with hnb | hid
      · rw [hnb u hu]
      · cases hk : userFinalState rows u with
        | none => rfl
        | some kidx =>
            cases hrid : r.id with
            | none => rfl
            | some rid =>
                rw [hrid] at hid
                simp only [idTruthy, ne_eq, decide_eq_false_iff_not, not_not] at hid
                simp only [if_pos hid]

theorem histUpdateFor_none_fields (rows : List ((String × ℚ) × ℕ)) (pm : List (ℕ × Perf))
    (clm : List (ℕ × ℤ)) (r : HistRecord) (u : String) (kidx : ℕ) (rid : String)
    (hu : r.user_id = some u) (hk : userFinalState rows u = some kidx)
    (hrid : r.id = some rid) (hne : rid ≠ "")
    (h : histUpdateFor rows pm clm r = none) :
    r.cluster = clm.lookup kidx ∧ r.performance = pm.lookup kidx := by
  unfold histUpdateFor at h
  simp only [hu, hk, hrid, if_neg hne] at h
  by_cases hcond : (r.cluster ≠ clm.lookup kidx ∨ r.performance ≠ pm.lookup kidx)
  · rw [if_pos hcond] at h; cases h
  · push_neg at hcond
    exact hcond

theorem applyHistUpdates_nil (r : HistRecord) : applyHistUpdates [] r = r := by
  unfold applyHistUpdates
  cases r.id <;> rfl

theorem find_upd_not_mem (rows : List ((String × ℚ) × ℕ)) (pm : List (ℕ × Perf))
    (clm : List (ℕ × ℤ)) (rid : String) :
    ∀ history : List HistRecord, rid ∉ history.filterMap (·.id) →
      (history.filterMap (histUpdateFor rows pm clm)).find? (fun v => v.id = rid) = none
  | [] => fun _ => rfl
  | h0 :: rest => by
      intro hmem
      have hmem' : rid ∉ rest.filterMap (·.id) := by
        intro hm
        exact hmem (by cases hh : h0.id <;> simp [List.filterMap_cons, hh, hm])
      cases hupd : histUpdateFor rows pm clm h0 with
      | none =>
          simp only [List.filterMap_cons, hupd]
          exact find_upd_not_mem rows pm clm rid rest hmem'
      | some upd =>
          obtain ⟨u, kidx, rid0, hu, hk, hid0, hne0, hupd_eq⟩ :=
            histUpdateFor_eq_some rows pm clm h0 upd hupd
          have hne : upd.id ≠ rid := by
            intro heq
            apply hmem
            rw [List.filterMap_cons, hid0]
            rw [hupd_eq] at heq
            simp only at heq
            rw [heq]
            exact List.mem_cons_self _ _
          simp only [List.filterMap_cons, hupd]
          rw [List.find?_cons_of_neg _ (by simp [hne])]
          exact find_upd_not_mem rows pm clm rid rest hmem'

theorem find_upd (rows : List ((String × ℚ) × ℕ)) (pm : List (ℕ × Perf))
    (clm : List (ℕ × ℤ)) :
    ∀ history : List HistRecord, (history.filterMap (·.id)).Nodup →
      ∀ r ∈ history, ∀ rid, r.id = some rid →
      (history.filterMap (histUpdateFor rows pm clm)).find? (fun v => v.id = rid)
        = histUpdateFor rows pm clm r
  | [] => by
      intro _ r hr
      cases hr
  | h0 :: rest => by
      intro hnodup r hr rid hrid
      rcases List.mem_cons.mp hr with rfl | hr'
      · have hids : rid ∉ rest.filterMap (·.id) := by
          rw [List.filterMap_cons, hrid] at hnodup
          exact (List.nodup_cons.mp hnodup).1
        cases hupd : histUpdateFor rows pm clm r with
        | some upd =>
            obtain ⟨u, kidx, rid0, hu, hk, hid0, hne0, hupd_eq⟩ :=
              histUpdateFor_eq_some rows pm clm r upd hupd
            have heq0 : rid0 = rid := by
              rw [hid0] at hrid
              injection hrid
            subst heq0
            simp only [List.filterMap_cons, hupd]
            rw [List.find?_cons_of_pos _ (by simp [hupd_eq])]
        | none =>
            simp only [List.filterMap_cons, hupd]
            exact find_upd_not_mem rows pm clm rid rest hids
      · have hmemid : rid ∈ rest.filterMap (·.id) := List.mem_filterMap.mpr ⟨r, hr', hrid⟩
        cases hid0 : h0.id with
        | none =>
            have h0none : histUpdateFor rows pm clm h0 = none :=
              histUpdateFor_none_of_skip rows pm clm h0 (Or.inr (by simp [idTruthy, hid0]))
            simp only [List.filterMap_cons, h0none]
            apply find_upd rows pm clm rest ?_ r hr' rid hrid
            rw [List.filterMap_cons, hid0] at hnodup
            exact hnodup
        | some i0 =>
            rw [List.filterMap_cons, hid0] at hnodup
            have hnodup' := (List.nodup_cons.mp hnodup).2
            have hi0nm := (List.nodup_cons.mp hnodup).1
            have hi0ne : i0 ≠ rid := fun heq => hi0nm (heq ▸ hmemid)
            cases hupd : histUpdateFor rows pm clm h0 with
            | none =>
                simp only [List.filterMap_cons, hupd]
                exact find_upd rows pm clm rest hnodup' r hr' rid hrid
            | some upd =>
                obtain ⟨u, kidx, rid0, hu, hk, hid0', hne0, hupd_eq⟩ :=
                  histUpdateFor_eq_some rows pm clm h0 upd hupd
                have heq0 : rid0 = i0 := by
                  rw [hid0] at hid0'
                  injection hid0' with hv
                  exact hv.symm
                subst heq0
                simp only [List.filterMap_cons, hupd]
                rw [List.find?_cons_of_neg _ (by simp [hupd_eq]; exact hi0ne)]
                exact find_upd rows pm clm rest hnodup' r hr' rid hrid

theorem applyHistUpdates_hist (rows : List ((String × ℚ) × ℕ)) (pm : List (ℕ × Perf))
    (clm : List (ℕ × ℤ)) (history : List HistRecord)
    (hnodup : (history.filterMap (·.id)).Nodup)
    (r : HistRecord) (hr : r ∈ history) :
    applyHistUpdates (history.filterMap (histUpdateFor rows pm clm)) r
      = match histUpdateFor rows pm clm r with
        | some upd => { r with cluster := upd.cluster, performance := upd.performance }
        | none => r := by
  cases hrid : r.id with
  | none =>
      have hnone : histUpdateFor rows pm clm r = none :=
        histUpdateFor_none_of_skip rows pm clm r (Or.inr (by simp [idTruthy, hrid]))
      rw [hnone]
      unfold applyHistUpdates
      simp only [hrid]
  | some rid =>
      unfold applyHistUpdates
      simp only [hrid]
      rw [find_upd rows pm clm history hnodup r hr rid hrid]

theorem profileAfter_metric (rows : List ((String × ℚ) × ℕ)) (pm : List (ℕ × Perf))
    (clm : List (ℕ × ℤ)) (u : String) (kidx : ℕ)
    (hk : userFinalState rows u = some kidx) :
    profileAfter (rows.map (fun t =>
        ({ user_id := t.1.1, cluster := clm.lookup t.2,
           performance := pm.lookup t.2 } : MetricUpdate))) u
      = some (clm.lookup kidx, pm.lookup kidx) := by
  unfold profileAfter
  unfold userFinalState at hk
  rw [List.filter_map, List.getLast?_map]
  have hpred : ((fun m : MetricUpdate => decide (m.user_id = u)) ∘ (fun t : (String × ℚ) × ℕ =>
      ({ user_id := t.1.1, cluster := clm.lookup t.2,
         performance := pm.lookup t.2 } : MetricUpdate)))
      = fun t : (String × ℚ) × ℕ => decide (t.1.1 = u) := rfl
  rw [hpred]
  cases hgl : (rows.filter fun t : (String × ℚ) × ℕ => decide (t.1.1 = u)).getLast? with
  | none => rw [hgl] at hk; exact Option.noConfusion hk
  | some t =>
      rw [hgl] at hk
      injection hk with hk2
      rw [← hk2]
      rfl

/-- **C7**: after a successful retrain and its reconciliation pass, every
history record (with a truthy id) of every user in the refit batch carries
exactly the cluster and performance now stored in that user's profile;
records skipped because nothing changed already satisfy the equality. -/
theorem C7_reconciliation (skl : SklearnFit) (st : ModelState) (data : List MetricRow)
    (history : List HistRecord)
    (hnodup : (history.filterMap (·.id)).Nodup)
    (hd : ¬ data.length < 3) (hv : ¬ (validRows data).length < 3)
    (h3 : (clusterOrder (retrainRows skl data)).length = 3)
    (r : HistRecord) (hr : r ∈ history) (u : String) (hu : r.user_id = some u)
    (kidx : ℕ) (hbatch : userFinalState (retrainRows skl data) u = some kidx)
    (rid : String) (hrid : r.id = some rid) (hridne : rid ≠ "") :
    profileAfter (retrain_model skl st data history).metric_updates u
      = some ((applyHistUpdates (retrain_model skl st data history).history_updates r).cluster,
              (applyHistUpdates (retrain_model skl st data history).history_updates r).performance) := by
  have hres_mu : (retrain_model skl st data history).metric_updates
      = (retrainRows skl data).map (fun t =>
          { user_id := t.1.1, cluster := (retrainClusterLabelMap skl data).lookup t.2,
            performance := (retrainPerfMap skl data).lookup t.2 }) := by
    unfold retrain_model
    rw [if_neg hd, if_neg hv, if_pos h3]
  have hres_hu : (retrain_model skl st data history).history_updates
      = history.filterMap (histUpdateFor (retrainRows skl data) (retrainPerfMap skl data)
          (retrainClusterLabelMap skl data)) := by
    unfold retrain_model
    rw [if_neg hd, if_neg hv, if_pos h3]
  rw [hres_mu, hres_hu,
    profileAfter_metric _ _ _ u kidx hbatch,
    applyHistUpdates_hist _ _ _ history hnodup r hr]
  cases hupd : histUpdateFor (retrainRows skl data) (retrainPerfMap skl data)
      (retrainClusterLabelMap skl data) r with
  | some upd =>
      obtain ⟨u', kidx', rid', hu', hk', hid', hne', hupd_eq⟩ :=
        histUpdateFor_eq_some _ _ _ r upd hupd
      rw [hu] at hu'
      injection hu' with hv'
      subst hv'
      rw [hbatch] at hk'
      injection hk' with hk2
      subst hk2
      rw [hupd_eq]
  | none =>
      obtain ⟨hc, hp⟩ := histUpdateFor_none_fields _ _ _ r u kidx rid hu hbatch hrid hridne hupd
      rw [hc, hp]

/-- **C9**: a history record whose user is not among the fitted rows (or
whose user field is absent), or whose record id is missing/empty, is left
exactly as it was by the reconciliation step, on every retrain outcome. -/
theorem C9_skip_untouched (skl : SklearnFit) (st : ModelState) (data : List MetricRow)
    (history : List HistRecord)
    (hnodup : (history.filterMap (·.id)).Nodup)
    (r : HistRecord) (hr : r ∈ history)
    (hskip : (∀ u, r.user_id = some u → userFinalState (retrainRows skl data) u = none)
             ∨ idTruthy r.id = false) :
    applyHistUpdates (retrain_model skl st data history).history_updates r = r := by
  unfold retrain_model
  by_cases hd : data.length < 3
  · rw [if_pos hd]
    exact applyHistUpdates_nil r
  rw [if_neg hd]
  by_cases hv : (validRows data).length < 3
  · rw [if_pos hv]
    exact applyHistUpdates_nil r
  rw [if_neg hv]
  by_cases h3 : (clusterOrder (retrainRows skl data)).length = 3
  · rw [if_pos h3]
    show applyHistUpdates (history.filterMap (histUpdateFor (retrainRows skl data)
        (retrainPerfMap skl data) (retrainClusterLabelMap skl data))) r = r
    rw [applyHistUpdates_hist _ _ _ history hnodup r hr,
      histUpdateFor_none_of_skip _ _ _ r hskip]
  · rw [if_neg h3]
    exact applyHistUpdates_nil r

/-- Witness for C7: after a successful concrete retrain, u1's stale history
record is rewritten to match u1's updated profile. -/
theorem C7_reconciliation_witness :
    profileAfter (retrain_model sklPermuted fittedState threeRows histW).metric_updates "u1"
      = some ((applyHistUpdates
                (retrain_model sklPermuted fittedState threeRows histW).history_updates
                recW).cluster,
              (applyHistUpdates
                (retrain_model sklPermuted fittedState threeRows histW).history_updates
                recW).performance) :=
  C7_reconciliation sklPermuted fittedState threeRows histW (by decide) (by decide) (by decide)
    (by
      have hvd : validRows threeRows = [("u1", 1), ("u2", 2), ("u3", 3)] := by
        simp [validRows, threeRows, List.filterMap_cons, List.filter_cons]
      have hrows : retrainRows sklPermuted threeRows
          = [(("u1", (1 : ℚ)), 2), (("u2", 2), 0), (("u3", 3), 1)] := by
        rw [retrainRows, hvd]
        rfl
      rw [hrows]
      norm_num [clusterOrder, meanScoreOf, listMeanQ, List.insertionSort, List.orderedInsert,
        List.dedup, List.pwFilter])
    recW (by decide) "u1" (by decide) 2 (by decide) "h1" (by decide) (by decide)

/-- Witness for C9: a record without an id is untouched by reconciliation. -/
theorem C9_skip_untouched_witness :
    applyHistUpdates (retrain_model sklDegenerate fittedState []
        [{ id := none, user_id := some "uX", cluster := some 5,
           performance := some Perf.LOW }]).history_updates
      { id := none, user_id := some "uX", cluster := some 5, performance := some Perf.LOW }
      = { id := none, user_id := some "uX", cluster := some 5, performance := some Perf.LOW } :=
  C9_skip_untouched sklDegenerate fittedState []
    [{ id := none, user_id := some "uX", cluster := some 5, performance := some Perf.LOW }]
    (by decide) _ (by decide) (Or.inr (by decide))

end Sekti
